import Mathlib

/-!
# Issue suggestions handler (`routers/web/repo/issue_suggestions.go`)

A shallow embedding of the `IssueSuggestions` web handler: the mapping from
the viewer's read capabilities to the kind filter, the construction of the
search options, and the projection of loaded issue records into the
suggestion payload, with the early returns on collaborator errors.

The collaborators the handler calls (`issue_indexer.SearchIssues`,
`issues_model.GetIssuesByIDs`, `Issue.LoadPullRequest`,
`PullRequest.IsWorkInProgress`) live in other packages; they are fields of
`Collaborators`, so every theorem about the handler holds for all of them.
-/

set_option autoImplicit false

namespace Repo

/-! ## Data model -/

/-- Go's `error` values, as messages. -/
abbrev Error := String

/-- Modelled from the spec: `api.StateType`, the state of an issue record
("state (open|closed)"); its declaration is in `modules/structs`. -/
inductive StateType where
  | StateOpen
  | StateClosed
deriving DecidableEq, Repr

/-- Modelled from the spec: the conversion `string(issue.State())`, whose values
the spec gives as "open" and "closed". -/
def StateType.toString : StateType → String
  | .StateOpen => "open"
  | .StateClosed => "closed"

/-- The pull-request linkage of an issue record (`issues_model.PullRequest`),
with the fields the handler reads. -/
structure PullRequest where
  ID : Int
  HasMerged : Bool
deriving DecidableEq, Repr

/-- An issue record (`issues_model.Issue`), with the fields the handler reads.
`State` stands for the method `issue.State()`; `PullRequest` is `none` for a
nil pointer. -/
structure Issue where
  ID : Int
  Title : String
  State : StateType
  IsPull : Bool
  PullRequest : Option PullRequest
deriving DecidableEq, Repr

/-- The anonymous struct behind `issueSuggestion.PullRequest`. -/
structure issueSuggestionPullRequest where
  Merged : Bool
  Draft : Bool
deriving DecidableEq, Repr

/-- The `issueSuggestion` payload; `PullRequest = none` is the nil pointer,
which `omitempty` leaves out of the JSON object. -/
structure issueSuggestion where
  ID : Int
  Title : String
  State : String
  PullRequest : Option issueSuggestionPullRequest
deriving DecidableEq, Repr

/-- The paging options `db.ListOptions`. -/
structure ListOptions where
  Page : Int
  PageSize : Int
  ListAll : Bool
deriving DecidableEq, Repr

/-- The sort orders of the issue indexer (`issue_indexer.SortBy`). -/
inductive SortBy where
  | SortByCreatedDesc
  | SortByUpdatedDesc
  | SortByCommentsDesc
  | SortByDeadlineDesc
  | SortByCreatedAsc
  | SortByUpdatedAsc
  | SortByCommentsAsc
  | SortByDeadlineAsc
deriving DecidableEq, Repr

/-- The fields of `issue_indexer.SearchOptions` the handler sets.
`optional.Option[bool]` is `Option Bool`, its zero value and `nil` being `none`. -/
structure SearchOptions where
  Paginator : ListOptions
  Keyword : String
  RepoIDs : List Int
  IsPull : Option Bool
  IsClosed : Option Bool
  SortBy : SortBy
deriving DecidableEq, Repr

/-- What the handler writes to the response: `ctx.ServerError(logMsg, err)`
or `ctx.JSON(status, content)`. -/
inductive Response where
  | ServerError (logMsg : String) (err : Error)
  | JSON (status : Nat) (content : List issueSuggestion)
deriving DecidableEq, Repr

/-- `http.StatusOK`. -/
def StatusOK : Nat := 200

/-- The functions of other packages that the handler calls.
`LoadPullRequest` returns the record as the call leaves it (the Go method
fills `issue.PullRequest` in place) or the error. -/
structure Collaborators where
  SearchIssues : SearchOptions → Except Error (List Int × Int)
  GetIssuesByIDs : List Int → Bool → Except Error (List Issue)
  LoadPullRequest : Issue → Except Error Issue
  IsWorkInProgress : PullRequest → Bool

/-! ## The handler -/

/-- Lines 34-39: the kind filter computed from the two read capabilities. -/
def IssueSuggestions.isPull (canReadIssues canReadPulls : Bool) : Option Bool :=
  if canReadPulls && !canReadIssues then
    some true
  else if canReadIssues && !canReadPulls then
    some false
  else
    none

/-- Lines 41-51: the search options built by the handler. -/
def IssueSuggestions.searchOpt (keyword : String) (repoID : Int)
    (canReadIssues canReadPulls : Bool) : SearchOptions :=
  { Paginator := { Page := 0, PageSize := 5, ListAll := false }
    Keyword := keyword
    RepoIDs := [repoID]
    IsPull := IssueSuggestions.isPull canReadIssues canReadPulls
    IsClosed := none
    SortBy := SortBy.SortByUpdatedDesc }

/-- Lines 67-87: the body of the loop up to the `append`: the suggestion built
for one record, or the error of `LoadPullRequest` with which the handler
returns. The fields `ID`, `Title` and `State` are read before the linkage is
loaded; `PullRequest` is read from the record as `LoadPullRequest` leaves it. -/
def IssueSuggestions.body (c : Collaborators) (issue : Issue) : Except Error issueSuggestion :=
  let suggestion : issueSuggestion :=
    { ID := issue.ID, Title := issue.Title, State := issue.State.toString,
      PullRequest := none }
  if issue.IsPull then
    match c.LoadPullRequest issue with
    | .error err => .error err
    | .ok issue' =>
      match issue'.PullRequest with
      | some pr =>
        .ok { suggestion with
              PullRequest := some { Merged := pr.HasMerged,
                                    Draft := c.IsWorkInProgress pr } }
      | none => .ok suggestion
  else
    .ok suggestion

/-- Lines 66-90: the loop over the loaded records. `suggestions` is the slice
built so far (line 89 appends to it); an error in the body leaves the loop,
and the handler, at once. -/
def IssueSuggestions.loop (c : Collaborators) :
    List Issue → List issueSuggestion → Except Error (List issueSuggestion)
  | [], suggestions => .ok suggestions
  | issue :: rest, suggestions =>
    match IssueSuggestions.body c issue with
    | .error err => .error err
    | .ok suggestion => IssueSuggestions.loop c rest (suggestions ++ [suggestion])

/-- Lines 58-92: the handler from the result of the index search on. -/
def IssueSuggestions.afterSearch (c : Collaborators)
    (found : Except Error (List Int × Int)) : Response :=
  match found with
  | .error err => Response.ServerError "SearchIssues" err
  | .ok (ids, _) =>
    match c.GetIssuesByIDs ids true with
    | .error err => Response.ServerError "FindIssuesByIDs" err
    | .ok issues =>
      match IssueSuggestions.loop c issues [] with
      | .error err => Response.ServerError "LoadPullRequest" err
      | .ok suggestions => Response.JSON StatusOK suggestions

/-- The handler `IssueSuggestions`: `keyword` is the form value `q`, `repoID` is
`ctx.Repo.Repository.ID`, and the two booleans are `ctx.Repo.CanRead` of the
issues and pull-requests units. -/
def IssueSuggestions (c : Collaborators) (keyword : String) (repoID : Int)
    (canReadIssues canReadPulls : Bool) : Response :=
  IssueSuggestions.afterSearch c
    (c.SearchIssues (IssueSuggestions.searchOpt keyword repoID canReadIssues canReadPulls))

/-! ## The external collaborators, as the specification describes them -/

/-- Modelled from the spec: the Index Gateway `issue_indexer.SearchIssues`
(section 4.3), which is not part of this package. `backend` gives the full
ranked list of matching ids for a filter, or fails; the gateway returns the
page of `pageSize` ids at `pageOffset`, with the total count of matches. -/
def indexGateway (backend : SearchOptions → Except Error (List Int))
    (filter : SearchOptions) : Except Error (List Int × Int) :=
  match backend filter with
  | .error err => .error err
  | .ok ranked =>
    .ok ((ranked.drop (filter.Paginator.Page.toNat * filter.Paginator.PageSize.toNat)).take
          filter.Paginator.PageSize.toNat, (ranked.length : Int))

/-- Modelled from the spec: the Record Loader `issues_model.GetIssuesByIDs`
(section 4.4), which is not part of this package. `persistence` is the lookup
of a record by id, or the failure of persistence access; the records come in
the order of `ids`, and an id without a record is left out. -/
def recordLoader (persistence : Except Error (Int → Option Issue))
    (ids : List Int) (_keepOrder : Bool) : Except Error (List Issue) :=
  match persistence with
  | .error err => .error err
  | .ok lookup => .ok (ids.filterMap lookup)

/-- The handler's collaborators with the index gateway and the record loader of
the specification. -/
def specCollaborators (backend : SearchOptions → Except Error (List Int))
    (persistence : Except Error (Int → Option Issue))
    (loadPullRequest : Issue → Except Error Issue)
    (isWorkInProgress : PullRequest → Bool) : Collaborators :=
  { SearchIssues := indexGateway backend
    GetIssuesByIDs := recordLoader persistence
    LoadPullRequest := loadPullRequest
    IsWorkInProgress := isWorkInProgress }

/-! ## Example data (the scenarios of the specification) -/

/-- Issue #1 of scenario A. -/
def issue1 : Issue :=
  { ID := 1, Title := "bug: crash", State := .StateOpen, IsPull := false, PullRequest := none }

/-- Issue #3 of scenario A. -/
def issue3 : Issue :=
  { ID := 3, Title := "bugfix", State := .StateClosed, IsPull := false, PullRequest := none }

/-- Pull request #5 of scenario B, before its linkage is loaded. -/
def pull5 : Issue :=
  { ID := 5, Title := "WIP: search box", State := .StateOpen, IsPull := true,
    PullRequest := none }

/-- A record flagged as a pull request for which no linkage exists. -/
def pull9 : Issue :=
  { ID := 9, Title := "orphan", State := .StateOpen, IsPull := true, PullRequest := none }

/-- A record flagged as a pull request whose linkage cannot be read. -/
def pull13 : Issue :=
  { ID := 13, Title := "broken", State := .StateClosed, IsPull := true, PullRequest := none }

/-- An example store of records, by id. -/
def exampleLookup (id : Int) : Option Issue :=
  if id = 1 then some issue1
  else if id = 3 then some issue3
  else if id = 5 then some pull5
  else if id = 9 then some pull9
  else if id = 13 then some pull13
  else none

/-- An example linkage resolver: #5 has an unmerged linkage, #13 fails, and any
other record is left as it is. -/
def exampleLoadPullRequest (issue : Issue) : Except Error Issue :=
  if issue.ID = 5 then .ok { issue with PullRequest := some { ID := 50, HasMerged := false } }
  else if issue.ID = 13 then .error "pull request: database is locked"
  else .ok issue

/-- A linkage resolver that always fails. -/
def failingLoadPullRequest (_issue : Issue) : Except Error Issue :=
  .error "pull request: database is locked"

/-- An example draft predicate: the linkage 50 is a draft. -/
def exampleIsWorkInProgress (pr : PullRequest) : Bool :=
  decide (pr.ID = 50)

/-- Example collaborators: the index returns `ids` (with their count) for every
filter, the loader returns the stored records of the ids in their order. -/
def exampleCollaborators (ids : List Int) : Collaborators :=
  { SearchIssues := fun _ => .ok (ids, (ids.length : Int))
    GetIssuesByIDs := fun l _ => .ok (l.filterMap exampleLookup)
    LoadPullRequest := exampleLoadPullRequest
    IsWorkInProgress := exampleIsWorkInProgress }

/-- Collaborators that expose the kind filter they are searched with: the index
search fails with a message naming the `IsPull` filter of the options it is
given, so the response of the handler shows which filter it passed. -/
def kindFilterProbe : Collaborators :=
  { SearchIssues := fun opt =>
      match opt.IsPull with
      | some true => .error "pull requests only"
      | some false => .error "issues only"
      | none => .error "no kind filter"
    GetIssuesByIDs := fun _ _ => .ok []
    LoadPullRequest := fun issue => .ok issue
    IsWorkInProgress := fun _ => false }

/-- Scenario C: seven plain issues, ids 21 to 27, all stored. -/
def sevenLookup (id : Int) : Option Issue :=
  if 21 ≤ id ∧ id ≤ 27 then
    some { ID := id, Title := "flaky test", State := .StateOpen, IsPull := false,
           PullRequest := none }
  else none

/-- Scenario C: the backend ranks the seven issues from 27 down to 21. -/
def sevenBackend (_filter : SearchOptions) : Except Error (List Int) :=
  .ok [27, 26, 25, 24, 23, 22, 21]

/-! ## Lemmas on the loop -/

/-- The loop only appends to the slice it starts from. -/
theorem loop_append (c : Collaborators) (issues : List Issue) (acc : List issueSuggestion) :
    IssueSuggestions.loop c issues acc =
      (IssueSuggestions.loop c issues []).map (fun out => acc ++ out) := by
  induction issues generalizing acc with
  | nil => simp [IssueSuggestions.loop, Except.map]
  | cons issue rest ih =>
    simp only [IssueSuggestions.loop]
    cases hb : IssueSuggestions.body c issue with
    | error err => simp [Except.map]
    | ok s =>
      simp only []
      rw [ih (acc ++ [s]), ih ([] ++ [s])]
      cases IssueSuggestions.loop c rest [] with
      | error err => simp [Except.map]
      | ok out => simp [Except.map]

/-- The loop on a non-empty list, when the body succeeds on the head. -/
theorem loop_cons_ok (c : Collaborators) (issue : Issue) (rest : List Issue)
    (s : issueSuggestion) (hb : IssueSuggestions.body c issue = .ok s) :
    IssueSuggestions.loop c (issue :: rest) [] =
      (IssueSuggestions.loop c rest []).map (fun out => s :: out) := by
  simp only [IssueSuggestions.loop, hb]
  rw [loop_append]
  cases IssueSuggestions.loop c rest [] with
  | error err => simp [Except.map]
  | ok out => simp [Except.map]

/-- A successful loop is the body applied to each record, position by position. -/
theorem loop_ok_iff (c : Collaborators) (issues : List Issue) (out : List issueSuggestion) :
    IssueSuggestions.loop c issues [] = .ok out ↔
      List.Forall₂ (fun issue s => IssueSuggestions.body c issue = .ok s) issues out := by
  induction issues generalizing out with
  | nil =>
    simp only [IssueSuggestions.loop, Except.ok.injEq, List.forall₂_nil_left_iff]
    exact eq_comm
  | cons issue rest ih =>
    cases hb : IssueSuggestions.body c issue with
    | error err =>
      simp only [IssueSuggestions.loop, hb]
      constructor
      · intro h; cases h
      · intro h
        cases h with
        | cons h1 _ => rw [hb] at h1; cases h1
    | ok s =>
      rw [loop_cons_ok c issue rest s hb]
      constructor
      · intro h
        cases hl : IssueSuggestions.loop c rest [] with
        | error err => rw [hl] at h; simp [Except.map] at h
        | ok out' =>
          rw [hl] at h
          simp only [Except.map, Except.ok.injEq] at h
          subst h
          exact List.Forall₂.cons hb ((ih out').mp hl)
      · intro h
        cases h with
        | cons h1 h2 =>
          rw [hb] at h1
          cases h1
          rw [(ih _).mpr h2]
          rfl

/-- The loop fails as soon as the body fails on some record of the list. -/
theorem loop_error_of_mem (c : Collaborators) (issues : List Issue) (issue : Issue)
    (err : Error) (hm : issue ∈ issues) (hb : IssueSuggestions.body c issue = .error err) :
    ∃ err', IssueSuggestions.loop c issues [] = .error err' := by
  induction issues with
  | nil => cases hm
  | cons x rest ih =>
    cases hx : IssueSuggestions.body c x with
    | error e => exact ⟨e, by simp [IssueSuggestions.loop, hx]⟩
    | ok s =>
      rw [loop_cons_ok c x rest s hx]
      rcases List.mem_cons.mp hm with h | h
      · subst h; rw [hb] at hx; cases hx
      · obtain ⟨e, he⟩ := ih h
        exact ⟨e, by rw [he]; rfl⟩

/-- The loop succeeds when the body succeeds on every record of the list. -/
theorem loop_ok_of_forall (c : Collaborators) (issues : List Issue)
    (h : ∀ issue ∈ issues, ∃ s, IssueSuggestions.body c issue = .ok s) :
    ∃ out, IssueSuggestions.loop c issues [] = .ok out := by
  induction issues with
  | nil => exact ⟨[], rfl⟩
  | cons x rest ih =>
    obtain ⟨s, hs⟩ := h x (List.mem_cons_self x rest)
    obtain ⟨out, ho⟩ := ih (fun issue hi => h issue (List.mem_cons_of_mem x hi))
    exact ⟨s :: out, by rw [loop_cons_ok c x rest s hs, ho]; rfl⟩

/-- Two lists related position by position: the element at a position of the
first has its partner at the same position of the second. -/
theorem forall₂_getElem? {α β : Type} {R : α → β → Prop} {l₁ : List α} {l₂ : List β}
    (h : List.Forall₂ R l₁ l₂) (i : Nat) (a : α) (ha : l₁[i]? = some a) :
    ∃ b, l₂[i]? = some b ∧ R a b := by
  induction h generalizing i with
  | nil => simp at ha
  | cons hab _ ih =>
    cases i with
    | zero =>
      simp only [List.getElem?_cons_zero, Option.some.injEq] at ha
      subst ha
      exact ⟨_, by simp, hab⟩
    | succ n =>
      simp only [List.getElem?_cons_succ] at ha
      obtain ⟨b, hb, hr⟩ := ih n ha
      exact ⟨b, by simpa using hb, hr⟩

/-- A successful run of the handler: the search and the load succeeded, the status
is 200, and the emitted list is the loop body applied record by record. -/
theorem run_ok (c : Collaborators) (keyword : String) (repoID : Int)
    (canReadIssues canReadPulls : Bool) (status : Nat) (sugs : List issueSuggestion)
    (hr : IssueSuggestions c keyword repoID canReadIssues canReadPulls =
      Response.JSON status sugs) :
    ∃ ids total issues,
      c.SearchIssues (IssueSuggestions.searchOpt keyword repoID canReadIssues canReadPulls) =
        .ok (ids, total) ∧
      c.GetIssuesByIDs ids true = .ok issues ∧
      status = StatusOK ∧
      List.Forall₂ (fun issue s => IssueSuggestions.body c issue = .ok s) issues sugs := by
  unfold IssueSuggestions IssueSuggestions.afterSearch at hr
  split at hr
  · cases hr
  · rename_i ids total hs
    split at hr
    · cases hr
    · rename_i issues hl
      split at hr
      · cases hr
      · rename_i out ho
        cases hr
        exact ⟨ids, total, issues, hs, hl, rfl, (loop_ok_iff c issues _).mp ho⟩

/-- The handler once the search and the load have succeeded. -/
theorem run_loaded (c : Collaborators) (keyword : String) (repoID : Int)
    (canReadIssues canReadPulls : Bool) (ids : List Int) (total : Int) (issues : List Issue)
    (hs : c.SearchIssues (IssueSuggestions.searchOpt keyword repoID canReadIssues canReadPulls) =
      .ok (ids, total))
    (hl : c.GetIssuesByIDs ids true = .ok issues) :
    IssueSuggestions c keyword repoID canReadIssues canReadPulls =
      match IssueSuggestions.loop c issues [] with
      | .error err => Response.ServerError "LoadPullRequest" err
      | .ok suggestions => Response.JSON StatusOK suggestions := by
  simp only [IssueSuggestions, IssueSuggestions.afterSearch, hs, hl]

/-- The fields the body copies from the record. -/
theorem body_fields (c : Collaborators) (issue : Issue) (s : issueSuggestion)
    (hb : IssueSuggestions.body c issue = .ok s) :
    s.ID = issue.ID ∧ s.Title = issue.Title ∧ s.State = issue.State.toString := by
  unfold IssueSuggestions.body at hb
  split at hb
  · split at hb
    · cases hb
    · split at hb <;> (cases hb; exact ⟨rfl, rfl, rfl⟩)
  · cases hb; exact ⟨rfl, rfl, rfl⟩

/-- The body on a record that is not a pull request. -/
theorem body_not_pull (c : Collaborators) (issue : Issue) (h : issue.IsPull = false) :
    IssueSuggestions.body c issue =
      .ok { ID := issue.ID, Title := issue.Title, State := issue.State.toString,
            PullRequest := none } := by
  simp [IssueSuggestions.body, h]

/-- The pull-request field the body builds. -/
theorem body_pull_request (c : Collaborators) (issue : Issue) (s : issueSuggestion)
    (hb : IssueSuggestions.body c issue = .ok s) :
    (s.PullRequest.isSome = true ↔
      issue.IsPull = true ∧
        ∃ issue', c.LoadPullRequest issue = .ok issue' ∧ issue'.PullRequest.isSome = true) ∧
    (∀ p, s.PullRequest = some p →
      ∃ issue' pr, c.LoadPullRequest issue = .ok issue' ∧ issue'.PullRequest = some pr ∧
        p.Merged = pr.HasMerged ∧ p.Draft = c.IsWorkInProgress pr) := by
  unfold IssueSuggestions.body at hb
  split at hb
  · rename_i hp
    split at hb
    · cases hb
    · rename_i issue' hl
      split at hb
      · rename_i pr hpr
        cases hb
        refine ⟨⟨fun _ => ⟨hp, issue', hl, by simp [hpr]⟩, fun _ => rfl⟩, ?_⟩
        intro p h
        simp only [Option.some.injEq] at h
        subst h
        exact ⟨issue', pr, hl, hpr, rfl, rfl⟩
      · rename_i hpr
        cases hb
        refine ⟨⟨fun h => by simp at h, ?_⟩, fun p h => by simp at h⟩
        rintro ⟨_, issue'', hl', hs⟩
        rw [hl] at hl'
        cases hl'
        rw [hpr] at hs
        simp at hs
  · rename_i hp
    cases hb
    exact ⟨⟨fun h => by simp at h, fun h => absurd h.1 hp⟩, fun p h => by simp at h⟩

/-- A successful run, with the search result and the loaded records named. -/
theorem run_forall₂ (c : Collaborators) (keyword : String) (repoID : Int)
    (canReadIssues canReadPulls : Bool) (ids : List Int) (total : Int) (issues : List Issue)
    (status : Nat) (sugs : List issueSuggestion)
    (hs : c.SearchIssues (IssueSuggestions.searchOpt keyword repoID canReadIssues canReadPulls) =
      .ok (ids, total))
    (hl : c.GetIssuesByIDs ids true = .ok issues)
    (hr : IssueSuggestions c keyword repoID canReadIssues canReadPulls =
      Response.JSON status sugs) :
    List.Forall₂ (fun issue s => IssueSuggestions.body c issue = .ok s) issues sugs := by
  obtain ⟨ids', total', issues', hs', hl', _, hf⟩ :=
    run_ok c keyword repoID canReadIssues canReadPulls status sugs hr
  rw [hs] at hs'
  cases hs'
  rw [hl] at hl'
  cases hl'
  exact hf

/-- The body fails on a pull request whose linkage resolution fails. -/
theorem body_error_of_load_error (c : Collaborators) (issue : Issue) (err : Error)
    (hp : issue.IsPull = true) (hl : c.LoadPullRequest issue = .error err) :
    IssueSuggestions.body c issue = .error err := by
  simp [IssueSuggestions.body, hp, hl]

/-- The body succeeds on a record unless it is a pull request whose linkage
resolution fails. -/
theorem body_ok_of_load_ok (c : Collaborators) (issue : Issue)
    (h : issue.IsPull = true → ∃ issue', c.LoadPullRequest issue = .ok issue') :
    ∃ s, IssueSuggestions.body c issue = .ok s := by
  unfold IssueSuggestions.body
  split
  · rename_i hp
    obtain ⟨issue', hl⟩ := h hp
    rw [hl]
    simp only []
    split <;> exact ⟨_, rfl⟩
  · exact ⟨_, rfl⟩

/-- The loop over records none of which is a pull request. -/
theorem loop_no_pull (c : Collaborators) (issues : List Issue)
    (hn : ∀ issue ∈ issues, issue.IsPull = false) :
    IssueSuggestions.loop c issues [] =
      .ok (issues.map fun issue =>
        { ID := issue.ID, Title := issue.Title, State := issue.State.toString,
          PullRequest := none }) := by
  induction issues with
  | nil => rfl
  | cons x rest ih =>
    rw [loop_cons_ok c x rest _ (body_not_pull c x (hn x (List.mem_cons_self x rest))),
      ih (fun issue hi => hn issue (List.mem_cons_of_mem x hi))]
    rfl

/-- The ids of the suggestions are the ids of the records, in order. -/
theorem forall₂_body_ids (c : Collaborators) (issues : List Issue) (sugs : List issueSuggestion)
    (hf : List.Forall₂ (fun issue s => IssueSuggestions.body c issue = .ok s) issues sugs) :
    sugs.map (fun s => s.ID) = issues.map (fun issue => issue.ID) := by
  induction hf with
  | nil => rfl
  | cons hb _ ih =>
    simp only [List.map_cons, ih, (body_fields c _ _ hb).1]

/-- Loading ids all of which have a record with that id gives back the ids. -/
theorem filterMap_ids (lookup : Int → Option Issue) (ids : List Int)
    (h : ∀ id ∈ ids, ∃ issue, lookup id = some issue ∧ issue.ID = id) :
    (ids.filterMap lookup).map (fun issue => issue.ID) = ids := by
  induction ids with
  | nil => rfl
  | cons x rest ih =>
    obtain ⟨issue, hx, hid⟩ := h x (List.mem_cons_self x rest)
    rw [List.filterMap_cons_some hx, List.map_cons, hid,
      ih (fun id hi => h id (List.mem_cons_of_mem x hi))]

/-! ## The claims -/

/-- C1 (capability asymmetry): for every pair of capabilities, the handler
`IssueSuggestions` runs the index search `c.SearchIssues` on options whose kind
filter `IsPull` is `some true` exactly for the pair (false, true), `some false`
exactly for (true, false), and `none` exactly for (true, true) and
(false, false); searched through collaborators that report the filter they
receive, the handler answers with the report of that filter. -/
theorem isPull_capability_asymmetry (keyword : String) (repoID : Int)
    (canReadIssues canReadPulls : Bool) :
    ∃ opt : SearchOptions,
      (∀ c : Collaborators,
        IssueSuggestions c keyword repoID canReadIssues canReadPulls =
          IssueSuggestions.afterSearch c (c.SearchIssues opt)) ∧
      (opt.IsPull = some true ↔ (canReadIssues, canReadPulls) = (false, true)) ∧
      (opt.IsPull = some false ↔ (canReadIssues, canReadPulls) = (true, false)) ∧
      (opt.IsPull = none ↔
        ((canReadIssues, canReadPulls) = (true, true) ∨
          (canReadIssues, canReadPulls) = (false, false))) ∧
      (IssueSuggestions kindFilterProbe keyword repoID canReadIssues canReadPulls =
          Response.ServerError "SearchIssues" "pull requests only" ↔
        (canReadIssues, canReadPulls) = (false, true)) ∧
      (IssueSuggestions kindFilterProbe keyword repoID canReadIssues canReadPulls =
          Response.ServerError "SearchIssues" "issues only" ↔
        (canReadIssues, canReadPulls) = (true, false)) ∧
      (IssueSuggestions kindFilterProbe keyword repoID canReadIssues canReadPulls =
          Response.ServerError "SearchIssues" "no kind filter" ↔
        ((canReadIssues, canReadPulls) = (true, true) ∨
          (canReadIssues, canReadPulls) = (false, false))) := by
  refine ⟨IssueSuggestions.searchOpt keyword repoID canReadIssues canReadPulls,
    fun _ => rfl, ?_⟩
  cases canReadIssues <;> cases canReadPulls <;>
    simp [IssueSuggestions, IssueSuggestions.afterSearch, IssueSuggestions.searchOpt,
      IssueSuggestions.isPull, kindFilterProbe]

/-- C2 (query construction): for every keyword, repository id and capability
pair, the search options have page 0, page size 5, no closed filter, the sort
order most-recently-updated-first, the repository scope `[repoID]`, the keyword
unchanged and the kind filter of the capability mapping; and the handler is
the rest of the pipeline run on the index search at exactly these options. -/
theorem searchOpt_construction (c : Collaborators) (keyword : String) (repoID : Int)
    (canReadIssues canReadPulls : Bool) :
    (IssueSuggestions.searchOpt keyword repoID canReadIssues canReadPulls).Paginator.Page = 0 ∧
    (IssueSuggestions.searchOpt keyword repoID canReadIssues canReadPulls).Paginator.PageSize = 5 ∧
    (IssueSuggestions.searchOpt keyword repoID canReadIssues canReadPulls).IsClosed = none ∧
    (IssueSuggestions.searchOpt keyword repoID canReadIssues canReadPulls).SortBy =
      SortBy.SortByUpdatedDesc ∧
    (IssueSuggestions.searchOpt keyword repoID canReadIssues canReadPulls).RepoIDs = [repoID] ∧
    (IssueSuggestions.searchOpt keyword repoID canReadIssues canReadPulls).Keyword = keyword ∧
    (IssueSuggestions.searchOpt keyword repoID canReadIssues canReadPulls).IsPull =
      IssueSuggestions.isPull canReadIssues canReadPulls ∧
    IssueSuggestions c keyword repoID canReadIssues canReadPulls =
      IssueSuggestions.afterSearch c (c.SearchIssues
        { Paginator := { Page := 0, PageSize := 5, ListAll := false }
          Keyword := keyword
          RepoIDs := [repoID]
          IsPull := IssueSuggestions.isPull canReadIssues canReadPulls
          IsClosed := none
          SortBy := SortBy.SortByUpdatedDesc }) :=
  ⟨rfl, rfl, rfl, rfl, rfl, rfl, rfl, rfl⟩

/-- C3, as the claim states it, fails: the loaded record #9 is flagged as a pull
request (`IsPull` is true), its linkage resolution succeeds and leaves no
linkage, the run succeeds, and the suggestion for #9 has no `pull_request`
field. -/
theorem pull_request_iff_isPull_counterexample :
    (exampleCollaborators [9]).GetIssuesByIDs [9] true = .ok [pull9] ∧
    pull9.IsPull = true ∧
    (exampleCollaborators [9]).LoadPullRequest pull9 = .ok pull9 ∧
    IssueSuggestions (exampleCollaborators [9]) "" 7 true true =
      Response.JSON 200
        [{ ID := 9, Title := "orphan", State := "open", PullRequest := none }] ∧
    ¬ (∀ (c : Collaborators) (keyword : String) (repoID : Int)
        (canReadIssues canReadPulls : Bool) (ids : List Int) (total : Int)
        (issues : List Issue) (status : Nat) (sugs : List issueSuggestion),
        c.SearchIssues (IssueSuggestions.searchOpt keyword repoID canReadIssues canReadPulls) =
          .ok (ids, total) →
        c.GetIssuesByIDs ids true = .ok issues →
        IssueSuggestions c keyword repoID canReadIssues canReadPulls =
          Response.JSON status sugs →
        ∀ (i : Nat) (issue : Issue), issues[i]? = some issue →
          ∃ s, sugs[i]? = some s ∧ (s.PullRequest.isSome = true ↔ issue.IsPull = true)) := by
  refine ⟨rfl, rfl, rfl, rfl, ?_⟩
  intro h
  obtain ⟨s, hs, hiff⟩ :=
    h (exampleCollaborators [9]) "" 7 true true [9] 1 [pull9] 200
      [{ ID := 9, Title := "orphan", State := "open", PullRequest := none }]
      rfl rfl rfl 0 pull9 rfl
  simp only [List.getElem?_cons_zero, Option.some.injEq] at hs
  subst hs
  have := hiff.mpr rfl
  simp at this

/-- C3 (pull-request projection, amended): in every successful run the emitted
list has one suggestion per loaded record, and the suggestion at the position
of a record has a `pull_request` field if and only if the record's `IsPull` is
true and its linkage resolution leaves a linkage; whenever the field is present
its `merged` is the linkage's `HasMerged` and its `draft` is the result of
`IsWorkInProgress` on the linkage. -/
theorem pull_request_projection (c : Collaborators) (keyword : String) (repoID : Int)
    (canReadIssues canReadPulls : Bool) (ids : List Int) (total : Int) (issues : List Issue)
    (status : Nat) (sugs : List issueSuggestion)
    (hs : c.SearchIssues (IssueSuggestions.searchOpt keyword repoID canReadIssues canReadPulls) =
      .ok (ids, total))
    (hl : c.GetIssuesByIDs ids true = .ok issues)
    (hr : IssueSuggestions c keyword repoID canReadIssues canReadPulls =
      Response.JSON status sugs) :
    sugs.length = issues.length ∧
    ∀ (i : Nat) (issue : Issue), issues[i]? = some issue →
      ∃ s, sugs[i]? = some s ∧
        (s.PullRequest.isSome = true ↔
          issue.IsPull = true ∧
            ∃ issue', c.LoadPullRequest issue = .ok issue' ∧
              issue'.PullRequest.isSome = true) ∧
        (∀ p, s.PullRequest = some p →
          ∃ issue' pr, c.LoadPullRequest issue = .ok issue' ∧ issue'.PullRequest = some pr ∧
            p.Merged = pr.HasMerged ∧ p.Draft = c.IsWorkInProgress pr) := by
  have hf := run_forall₂ c keyword repoID canReadIssues canReadPulls ids total issues status
    sugs hs hl hr
  refine ⟨hf.length_eq.symm, ?_⟩
  intro i issue hi
  obtain ⟨s, hsi, hb⟩ := forall₂_getElem? hf i issue hi
  exact ⟨s, hsi, body_pull_request c issue s hb⟩

/-- Witness of C3: scenario B with an issue and an orphan record around the pull
request #5. -/
theorem pull_request_projection_witness :
    (exampleCollaborators [1, 5, 9]).SearchIssues
        (IssueSuggestions.searchOpt "" 7 true true) = .ok ([1, 5, 9], 3) ∧
    (exampleCollaborators [1, 5, 9]).GetIssuesByIDs [1, 5, 9] true =
      .ok [issue1, pull5, pull9] ∧
    IssueSuggestions (exampleCollaborators [1, 5, 9]) "" 7 true true =
      Response.JSON 200
        [{ ID := 1, Title := "bug: crash", State := "open", PullRequest := none },
         { ID := 5, Title := "WIP: search box", State := "open",
           PullRequest := some { Merged := false, Draft := true } },
         { ID := 9, Title := "orphan", State := "open", PullRequest := none }] ∧
    ∀ (i : Nat) (issue : Issue), [issue1, pull5, pull9][i]? = some issue →
      ∃ s, ([{ ID := 1, Title := "bug: crash", State := "open", PullRequest := none },
         { ID := 5, Title := "WIP: search box", State := "open",
           PullRequest := some { Merged := false, Draft := true } },
         { ID := 9, Title := "orphan", State := "open", PullRequest := none }] :
          List issueSuggestion)[i]? = some s ∧
        (s.PullRequest.isSome = true ↔
          issue.IsPull = true ∧
            ∃ issue', (exampleCollaborators [1, 5, 9]).LoadPullRequest issue = .ok issue' ∧
              issue'.PullRequest.isSome = true) ∧
        (∀ p, s.PullRequest = some p →
          ∃ issue' pr, (exampleCollaborators [1, 5, 9]).LoadPullRequest issue = .ok issue' ∧
            issue'.PullRequest = some pr ∧
            p.Merged = pr.HasMerged ∧
            p.Draft = (exampleCollaborators [1, 5, 9]).IsWorkInProgress pr) :=
  ⟨rfl, rfl, rfl,
    (pull_request_projection (exampleCollaborators [1, 5, 9]) "" 7 true true [1, 5, 9] 3
      [issue1, pull5, pull9] 200 _ rfl rfl rfl).2⟩

/-- C4 (fail-closed): if the index search fails, or the bulk load fails, or
linkage resolution fails for some loaded record flagged as a pull request
(wherever it is in the list), the handler ends in a server error raised at one
of these three steps, and it emits no suggestion list. -/
theorem fail_closed (c : Collaborators) (keyword : String) (repoID : Int)
    (canReadIssues canReadPulls : Bool)
    (h : (∃ err, c.SearchIssues
            (IssueSuggestions.searchOpt keyword repoID canReadIssues canReadPulls) =
              .error err) ∨
         (∃ ids total err, c.SearchIssues
            (IssueSuggestions.searchOpt keyword repoID canReadIssues canReadPulls) =
              .ok (ids, total) ∧
            c.GetIssuesByIDs ids true = .error err) ∨
         (∃ ids total issues issue err, c.SearchIssues
            (IssueSuggestions.searchOpt keyword repoID canReadIssues canReadPulls) =
              .ok (ids, total) ∧
            c.GetIssuesByIDs ids true = .ok issues ∧
            issue ∈ issues ∧ issue.IsPull = true ∧
            c.LoadPullRequest issue = .error err)) :
    (∃ logMsg err,
      IssueSuggestions c keyword repoID canReadIssues canReadPulls =
        Response.ServerError logMsg err ∧
      (logMsg = "SearchIssues" ∨ logMsg = "FindIssuesByIDs" ∨ logMsg = "LoadPullRequest")) ∧
    ∀ status sugs,
      IssueSuggestions c keyword repoID canReadIssues canReadPulls ≠
        Response.JSON status sugs := by
  have key : ∃ logMsg err,
      IssueSuggestions c keyword repoID canReadIssues canReadPulls =
        Response.ServerError logMsg err ∧
      (logMsg = "SearchIssues" ∨ logMsg = "FindIssuesByIDs" ∨ logMsg = "LoadPullRequest") := by
    rcases h with ⟨err, hs⟩ | ⟨ids, total, err, hs, hl⟩ |
      ⟨ids, total, issues, issue, err, hs, hl, hm, hp, he⟩
    · exact ⟨"SearchIssues", err, by
        simp only [IssueSuggestions, IssueSuggestions.afterSearch, hs], Or.inl rfl⟩
    · exact ⟨"FindIssuesByIDs", err, by
        simp only [IssueSuggestions, IssueSuggestions.afterSearch, hs, hl], Or.inr (Or.inl rfl)⟩
    · obtain ⟨err', hloop⟩ :=
        loop_error_of_mem c issues issue err hm (body_error_of_load_error c issue err hp he)
      refine ⟨"LoadPullRequest", err', ?_, Or.inr (Or.inr rfl)⟩
      rw [run_loaded c keyword repoID canReadIssues canReadPulls ids total issues hs hl, hloop]
  refine ⟨key, ?_⟩
  obtain ⟨logMsg, err, hr, _⟩ := key
  intro status sugs hj
  rw [hr] at hj
  cases hj

/-- Witness of C4: the third of four loaded records is a pull request whose
linkage resolution fails; the suggestions of the first two are not emitted. -/
theorem fail_closed_witness :
    (exampleCollaborators [1, 5, 13, 3]).GetIssuesByIDs [1, 5, 13, 3] true =
      .ok [issue1, pull5, pull13, issue3] ∧
    (exampleCollaborators [1, 5, 13, 3]).LoadPullRequest pull13 =
      .error "pull request: database is locked" ∧
    IssueSuggestions (exampleCollaborators [1, 5, 13, 3]) "bug" 7 true true =
      Response.ServerError "LoadPullRequest" "pull request: database is locked" ∧
    ((∃ logMsg err,
      IssueSuggestions (exampleCollaborators [1, 5, 13, 3]) "bug" 7 true true =
        Response.ServerError logMsg err ∧
      (logMsg = "SearchIssues" ∨ logMsg = "FindIssuesByIDs" ∨ logMsg = "LoadPullRequest")) ∧
    ∀ status sugs,
      IssueSuggestions (exampleCollaborators [1, 5, 13, 3]) "bug" 7 true true ≠
        Response.JSON status sugs) :=
  ⟨rfl, rfl, rfl,
    fail_closed (exampleCollaborators [1, 5, 13, 3]) "bug" 7 true true
      (Or.inr (Or.inr ⟨[1, 5, 13, 3], 4, [issue1, pull5, pull13, issue3], pull13,
        "pull request: database is locked", rfl, rfl, by simp, rfl, rfl⟩))⟩

/-- C5, as the claim states it, fails: the index returns `[3, 2, 1]`, the record
loader keeps the order of the ids it is given and has no record for #2, the run
is a non-error run, and the ids of the emitted suggestions are `[3, 1]`, not the
ids returned by the index search. -/
theorem order_preservation_counterexample :
    (exampleCollaborators [3, 2, 1]).SearchIssues
        (IssueSuggestions.searchOpt "bug" 7 true false) = .ok ([3, 2, 1], 3) ∧
    (exampleCollaborators [3, 2, 1]).GetIssuesByIDs [3, 2, 1] true = .ok [issue3, issue1] ∧
    IssueSuggestions (exampleCollaborators [3, 2, 1]) "bug" 7 true false =
      Response.JSON 200
        [{ ID := 3, Title := "bugfix", State := "closed", PullRequest := none },
         { ID := 1, Title := "bug: crash", State := "open", PullRequest := none }] ∧
    ¬ (∀ (c : Collaborators) (keyword : String) (repoID : Int)
        (canReadIssues canReadPulls : Bool) (ids : List Int) (total : Int)
        (issues : List Issue) (status : Nat) (sugs : List issueSuggestion),
        c.SearchIssues (IssueSuggestions.searchOpt keyword repoID canReadIssues canReadPulls) =
          .ok (ids, total) →
        c.GetIssuesByIDs ids true = .ok issues →
        (issues.map (fun issue => issue.ID)).Sublist ids →
        IssueSuggestions c keyword repoID canReadIssues canReadPulls =
          Response.JSON status sugs →
        sugs.map (fun s => s.ID) = ids) := by
  refine ⟨rfl, rfl, rfl, ?_⟩
  intro h
  have hsub : ([issue3, issue1].map (fun issue => issue.ID)).Sublist [3, 2, 1] :=
    List.Sublist.cons₂ 3 (List.Sublist.cons 2 (List.Sublist.cons₂ 1 List.Sublist.slnil))
  have hids := h (exampleCollaborators [3, 2, 1]) "bug" 7 true false [3, 2, 1] 3
    [issue3, issue1] 200
    [{ ID := 3, Title := "bugfix", State := "closed", PullRequest := none },
     { ID := 1, Title := "bug: crash", State := "open", PullRequest := none }]
    rfl rfl hsub rfl
  have hlen := congrArg List.length hids
  simp at hlen

/-- C5 (order preservation, amended): in every non-error run the ids of the
emitted suggestions are the ids of the loaded records, in the same order, each
suggestion carrying the id of the record at its position, so the projection
moves, drops or repeats no loaded record; hence, when the record loader returns
the records in the order of the ids it is given, the emitted ids are the ids
returned by the index search that have a record, in the index's order (a
sublist of the index's list), and they are the whole list of the index when
the loader returns a record for each of its ids. -/
theorem order_preservation (c : Collaborators) (keyword : String) (repoID : Int)
    (canReadIssues canReadPulls : Bool) (ids : List Int) (total : Int) (issues : List Issue)
    (status : Nat) (sugs : List issueSuggestion)
    (hs : c.SearchIssues (IssueSuggestions.searchOpt keyword repoID canReadIssues canReadPulls) =
      .ok (ids, total))
    (hl : c.GetIssuesByIDs ids true = .ok issues)
    (hr : IssueSuggestions c keyword repoID canReadIssues canReadPulls =
      Response.JSON status sugs) :
    sugs.map (fun s => s.ID) = issues.map (fun issue => issue.ID) ∧
    List.Forall₂ (fun issue s => s.ID = issue.ID) issues sugs ∧
    ((issues.map (fun issue => issue.ID)).Sublist ids →
      (sugs.map (fun s => s.ID)).Sublist ids) ∧
    (issues.map (fun issue => issue.ID) = ids → sugs.map (fun s => s.ID) = ids) := by
  have hf := run_forall₂ c keyword repoID canReadIssues canReadPulls ids total issues status
    sugs hs hl hr
  have hmap := forall₂_body_ids c issues sugs hf
  refine ⟨hmap, hf.imp (fun issue s hb => (body_fields c issue s hb).1), ?_, ?_⟩
  · intro hsub
    rw [hmap]
    exact hsub
  · intro hall
    rw [hmap, hall]

/-- Witness of C5: the index returns `[5, 2, 3, 1]`, of which #2 has no record;
the emitted ids are `[5, 3, 1]`. -/
theorem order_preservation_witness :
    (exampleCollaborators [5, 2, 3, 1]).SearchIssues
        (IssueSuggestions.searchOpt "" 7 true true) = .ok ([5, 2, 3, 1], 4) ∧
    (exampleCollaborators [5, 2, 3, 1]).GetIssuesByIDs [5, 2, 3, 1] true =
      .ok [pull5, issue3, issue1] ∧
    IssueSuggestions (exampleCollaborators [5, 2, 3, 1]) "" 7 true true =
      Response.JSON 200
        [{ ID := 5, Title := "WIP: search box", State := "open",
           PullRequest := some { Merged := false, Draft := true } },
         { ID := 3, Title := "bugfix", State := "closed", PullRequest := none },
         { ID := 1, Title := "bug: crash", State := "open", PullRequest := none }] ∧
    ([{ ID := 5, Title := "WIP: search box", State := "open",
           PullRequest := some { Merged := false, Draft := true } },
         { ID := 3, Title := "bugfix", State := "closed", PullRequest := none },
         { ID := 1, Title := "bug: crash", State := "open", PullRequest := none }] :
        List issueSuggestion).map (fun s => s.ID) =
      [pull5, issue3, issue1].map (fun issue => issue.ID) ∧
    ([{ ID := 5, Title := "WIP: search box", State := "open",
           PullRequest := some { Merged := false, Draft := true } },
         { ID := 3, Title := "bugfix", State := "closed", PullRequest := none },
         { ID := 1, Title := "bug: crash", State := "open", PullRequest := none }] :
        List issueSuggestion).map (fun s => s.ID) = [5, 3, 1] :=
  ⟨rfl, rfl, rfl,
    (order_preservation (exampleCollaborators [5, 2, 3, 1]) "" 7 true true [5, 2, 3, 1] 4
      [pull5, issue3, issue1] 200 _ rfl rfl rfl).1, rfl⟩

/-- C6 (bounded result size), with the index gateway and the record loader of
the specification: the list emitted by a successful run has at most 5
suggestions; and when the index has 7 matching ids whose records all load, the
list has exactly 5 suggestions, those of the first 5 ids in ranked order. -/
theorem bounded_result_size (backend : SearchOptions → Except Error (List Int))
    (persistence : Except Error (Int → Option Issue))
    (loadPullRequest : Issue → Except Error Issue) (isWorkInProgress : PullRequest → Bool)
    (keyword : String) (repoID : Int) (canReadIssues canReadPulls : Bool)
    (status : Nat) (sugs : List issueSuggestion)
    (hr : IssueSuggestions
        (specCollaborators backend persistence loadPullRequest isWorkInProgress)
        keyword repoID canReadIssues canReadPulls = Response.JSON status sugs) :
    sugs.length ≤ 5 ∧
    ∀ (ranked : List Int) (lookup : Int → Option Issue),
      backend (IssueSuggestions.searchOpt keyword repoID canReadIssues canReadPulls) =
        .ok ranked →
      persistence = .ok lookup →
      ranked.length = 7 →
      (∀ id ∈ ranked, ∃ issue, lookup id = some issue ∧ issue.ID = id) →
      sugs.length = 5 ∧ sugs.map (fun s => s.ID) = ranked.take 5 := by
  obtain ⟨ids, total, issues, hs, hl, _, hf⟩ := run_ok _ keyword repoID canReadIssues
    canReadPulls status sugs hr
  simp only [specCollaborators, indexGateway] at hs
  simp only [specCollaborators, recordLoader] at hl
  cases hb : backend (IssueSuggestions.searchOpt keyword repoID canReadIssues canReadPulls) with
  | error err => rw [hb] at hs; cases hs
  | ok ranked' =>
    rw [hb] at hs
    simp only [IssueSuggestions.searchOpt, Except.ok.injEq, Prod.mk.injEq] at hs
    have hids : ids = ranked'.take 5 := by
      rw [← hs.1]
      simp
    cases hp : persistence with
    | error err => rw [hp] at hl; cases hl
    | ok lookup' =>
      rw [hp] at hl
      simp only [Except.ok.injEq] at hl
      have hlen : sugs.length = (ids.filterMap lookup').length := by
        rw [hl]; exact hf.length_eq.symm
      constructor
      · rw [hlen]
        calc (ids.filterMap lookup').length ≤ ids.length := List.length_filterMap_le _ _
          _ ≤ 5 := by rw [hids]; exact List.length_take_le _ _
      · intro ranked lookup hrk hlk h7 hall
        cases hrk
        cases hlk
        have hmap : sugs.map (fun s => s.ID) = ids := by
          rw [forall₂_body_ids _ issues sugs hf, ← hl]
          apply filterMap_ids
          intro id hid
          rw [hids] at hid
          exact hall id (List.mem_of_mem_take hid)
        refine ⟨?_, by rw [hmap, hids]⟩
        have := congrArg List.length hmap
        rw [List.length_map, hids, List.length_take, h7] at this
        simpa using this

/-- Witness of C6: scenario C, seven matches and all their records stored. -/
theorem bounded_result_size_witness :
    IssueSuggestions
        (specCollaborators sevenBackend (.ok sevenLookup) exampleLoadPullRequest
          exampleIsWorkInProgress) "flaky" 7 true true =
      Response.JSON 200
        [{ ID := 27, Title := "flaky test", State := "open", PullRequest := none },
         { ID := 26, Title := "flaky test", State := "open", PullRequest := none },
         { ID := 25, Title := "flaky test", State := "open", PullRequest := none },
         { ID := 24, Title := "flaky test", State := "open", PullRequest := none },
         { ID := 23, Title := "flaky test", State := "open", PullRequest := none }] ∧
    ([{ ID := 27, Title := "flaky test", State := "open", PullRequest := none },
         { ID := 26, Title := "flaky test", State := "open", PullRequest := none },
         { ID := 25, Title := "flaky test", State := "open", PullRequest := none },
         { ID := 24, Title := "flaky test", State := "open", PullRequest := none },
         { ID := 23, Title := "flaky test", State := "open", PullRequest := none }] :
        List issueSuggestion).length ≤ 5 ∧
    ([{ ID := 27, Title := "flaky test", State := "open", PullRequest := none },
         { ID := 26, Title := "flaky test", State := "open", PullRequest := none },
         { ID := 25, Title := "flaky test", State := "open", PullRequest := none },
         { ID := 24, Title := "flaky test", State := "open", PullRequest := none },
         { ID := 23, Title := "flaky test", State := "open", PullRequest := none }] :
        List issueSuggestion).map (fun s => s.ID) =
      [27, 26, 25, 24, 23, 22, 21].take 5 :=
  have h := bounded_result_size sevenBackend (.ok sevenLookup) exampleLoadPullRequest
    exampleIsWorkInProgress "flaky" 7 true true 200 _ rfl
  ⟨rfl, h.1,
    (h.2 [27, 26, 25, 24, 23, 22, 21] sevenLookup rfl rfl rfl (by
      intro id hid
      simp only [List.mem_cons, List.mem_singleton, List.not_mem_nil, or_false] at hid
      rcases hid with h | h | h | h | h | h | h <;> subst h <;> exact ⟨_, rfl, rfl⟩)).2⟩

/-- C8 (missing records are omitted): when the record loader returns, in the
order of the ids, the records of exactly the index-returned ids that exist,
then in every non-error run the ids of the emitted suggestions are exactly the
index-returned ids that have a record, in their original relative order (a
sublist of the index's list), and an id without a record has no suggestion;
and the run is a non-error run whenever linkage resolution succeeds for the
loaded pull requests, whatever ids have no record. -/
theorem missing_records_omitted (c : Collaborators) (keyword : String) (repoID : Int)
    (canReadIssues canReadPulls : Bool) (ids : List Int) (total : Int) (issues : List Issue)
    (stored : Int → Bool)
    (hs : c.SearchIssues (IssueSuggestions.searchOpt keyword repoID canReadIssues canReadPulls) =
      .ok (ids, total))
    (hl : c.GetIssuesByIDs ids true = .ok issues)
    (hload : issues.map (fun issue => issue.ID) = ids.filter stored) :
    (∀ status sugs,
      IssueSuggestions c keyword repoID canReadIssues canReadPulls =
        Response.JSON status sugs →
      sugs.map (fun s => s.ID) = ids.filter stored ∧
      (sugs.map (fun s => s.ID)).Sublist ids ∧
      ∀ id ∈ ids, stored id = false → id ∉ sugs.map (fun s => s.ID)) ∧
    ((∀ issue ∈ issues, issue.IsPull = true →
        ∃ issue', c.LoadPullRequest issue = .ok issue') →
      ∃ sugs, IssueSuggestions c keyword repoID canReadIssues canReadPulls =
        Response.JSON StatusOK sugs) := by
  constructor
  · intro status sugs hr
    have hf := run_forall₂ c keyword repoID canReadIssues canReadPulls ids total issues status
      sugs hs hl hr
    have hmap : sugs.map (fun s => s.ID) = ids.filter stored := by
      rw [forall₂_body_ids c issues sugs hf, hload]
    refine ⟨hmap, ?_, ?_⟩
    · rw [hmap]; exact List.filter_sublist ids
    · intro id _ hst hmem
      rw [hmap, List.mem_filter] at hmem
      rw [hst] at hmem
      exact Bool.false_ne_true hmem.2
  · intro hok
    obtain ⟨out, ho⟩ := loop_ok_of_forall c issues
      (fun issue hi => body_ok_of_load_ok c issue (hok issue hi))
    exact ⟨out, by
      rw [run_loaded c keyword repoID canReadIssues canReadPulls ids total issues hs hl, ho]⟩

/-- Witness of C8: scenario E, the index returning `[3, 2, 1]` after issue #2
was deleted. -/
theorem missing_records_omitted_witness :
    (exampleCollaborators [3, 2, 1]).SearchIssues
        (IssueSuggestions.searchOpt "bug" 7 true false) = .ok ([3, 2, 1], 3) ∧
    (exampleCollaborators [3, 2, 1]).GetIssuesByIDs [3, 2, 1] true = .ok [issue3, issue1] ∧
    [issue3, issue1].map (fun issue => issue.ID) =
      [3, 2, 1].filter (fun id => (exampleLookup id).isSome) ∧
    IssueSuggestions (exampleCollaborators [3, 2, 1]) "bug" 7 true false =
      Response.JSON 200
        [{ ID := 3, Title := "bugfix", State := "closed", PullRequest := none },
         { ID := 1, Title := "bug: crash", State := "open", PullRequest := none }] ∧
    ([{ ID := 3, Title := "bugfix", State := "closed", PullRequest := none },
         { ID := 1, Title := "bug: crash", State := "open", PullRequest := none }] :
        List issueSuggestion).map (fun s => s.ID) =
      [3, 2, 1].filter (fun id => (exampleLookup id).isSome) :=
  ⟨rfl, rfl, by decide, rfl,
    ((missing_records_omitted (exampleCollaborators [3, 2, 1]) "bug" 7 true false [3, 2, 1] 3
      [issue3, issue1] (fun id => (exampleLookup id).isSome) rfl rfl (by decide)).1
        200 _ rfl).1⟩

/-- C9 (field-wise projection): in every successful run the emitted list has as
many suggestions as the record loader returned records, and the suggestion at
position `i` has the `ID` and the `Title` of the record at position `i` and, as
its state, the string of the record's `State()`, which is "open" or "closed". -/
theorem fieldwise_projection (c : Collaborators) (keyword : String) (repoID : Int)
    (canReadIssues canReadPulls : Bool) (ids : List Int) (total : Int) (issues : List Issue)
    (status : Nat) (sugs : List issueSuggestion)
    (hs : c.SearchIssues (IssueSuggestions.searchOpt keyword repoID canReadIssues canReadPulls) =
      .ok (ids, total))
    (hl : c.GetIssuesByIDs ids true = .ok issues)
    (hr : IssueSuggestions c keyword repoID canReadIssues canReadPulls =
      Response.JSON status sugs) :
    sugs.length = issues.length ∧
    ∀ (i : Nat) (issue : Issue), issues[i]? = some issue →
      ∃ s, sugs[i]? = some s ∧ s.ID = issue.ID ∧ s.Title = issue.Title ∧
        s.State = issue.State.toString ∧ (s.State = "open" ∨ s.State = "closed") := by
  have hf := run_forall₂ c keyword repoID canReadIssues canReadPulls ids total issues status
    sugs hs hl hr
  refine ⟨hf.length_eq.symm, ?_⟩
  intro i issue hi
  obtain ⟨s, hsi, hb⟩ := forall₂_getElem? hf i issue hi
  obtain ⟨h1, h2, h3⟩ := body_fields c issue s hb
  refine ⟨s, hsi, h1, h2, h3, ?_⟩
  rw [h3]
  cases issue.State
  · exact Or.inl rfl
  · exact Or.inr rfl

/-- Witness of C9: a closed issue, a pull request and an open issue. -/
theorem fieldwise_projection_witness :
    (exampleCollaborators [3, 5, 1]).SearchIssues
        (IssueSuggestions.searchOpt "" 7 true true) = .ok ([3, 5, 1], 3) ∧
    (exampleCollaborators [3, 5, 1]).GetIssuesByIDs [3, 5, 1] true =
      .ok [issue3, pull5, issue1] ∧
    IssueSuggestions (exampleCollaborators [3, 5, 1]) "" 7 true true =
      Response.JSON 200
        [{ ID := 3, Title := "bugfix", State := "closed", PullRequest := none },
         { ID := 5, Title := "WIP: search box", State := "open",
           PullRequest := some { Merged := false, Draft := true } },
         { ID := 1, Title := "bug: crash", State := "open", PullRequest := none }] ∧
    ([{ ID := 3, Title := "bugfix", State := "closed", PullRequest := none },
         { ID := 5, Title := "WIP: search box", State := "open",
           PullRequest := some { Merged := false, Draft := true } },
         { ID := 1, Title := "bug: crash", State := "open", PullRequest := none }] :
        List issueSuggestion).length = [issue3, pull5, issue1].length :=
  ⟨rfl, rfl, rfl,
    (fieldwise_projection (exampleCollaborators [3, 5, 1]) "" 7 true true [3, 5, 1] 3
      [issue3, pull5, issue1] 200 _ rfl rfl rfl).1⟩

/-- C10 (linkage is consulted only for pull requests): when no loaded record is
flagged as a pull request, two sets of collaborators with the same index search
and the same record loader, whatever their linkage resolvers and draft
predicates, give the same response; that response is a 200 with one suggestion
per record, none of which has a `pull_request` field. -/
theorem linkage_only_for_pulls (c₁ c₂ : Collaborators) (keyword : String) (repoID : Int)
    (canReadIssues canReadPulls : Bool) (ids : List Int) (total : Int) (issues : List Issue)
    (hsearch : c₂.SearchIssues = c₁.SearchIssues)
    (hloader : c₂.GetIssuesByIDs = c₁.GetIssuesByIDs)
    (hs : c₁.SearchIssues (IssueSuggestions.searchOpt keyword repoID canReadIssues canReadPulls) =
      .ok (ids, total))
    (hl : c₁.GetIssuesByIDs ids true = .ok issues)
    (hn : ∀ issue ∈ issues, issue.IsPull = false) :
    IssueSuggestions c₁ keyword repoID canReadIssues canReadPulls =
      IssueSuggestions c₂ keyword repoID canReadIssues canReadPulls ∧
    ∃ sugs,
      IssueSuggestions c₁ keyword repoID canReadIssues canReadPulls =
        Response.JSON StatusOK sugs ∧
      sugs.length = issues.length ∧
      ∀ s ∈ sugs, s.PullRequest = none := by
  have h1 : IssueSuggestions c₁ keyword repoID canReadIssues canReadPulls =
      Response.JSON StatusOK (issues.map fun issue =>
        { ID := issue.ID, Title := issue.Title, State := issue.State.toString,
          PullRequest := none }) := by
    rw [run_loaded c₁ keyword repoID canReadIssues canReadPulls ids total issues hs hl,
      loop_no_pull c₁ issues hn]
  have h2 : IssueSuggestions c₂ keyword repoID canReadIssues canReadPulls =
      Response.JSON StatusOK (issues.map fun issue =>
        { ID := issue.ID, Title := issue.Title, State := issue.State.toString,
          PullRequest := none }) := by
    rw [run_loaded c₂ keyword repoID canReadIssues canReadPulls ids total issues
      (by rw [hsearch]; exact hs) (by rw [hloader]; exact hl),
      loop_no_pull c₂ issues hn]
  refine ⟨by rw [h1, h2], _, h1, by simp, ?_⟩
  intro s hmem
  obtain ⟨issue, _, rfl⟩ := List.mem_map.mp hmem
  rfl

/-- Witness of C10: scenario A, against collaborators whose linkage resolver
always fails. -/
theorem linkage_only_for_pulls_witness :
    (exampleCollaborators [3, 1]).GetIssuesByIDs [3, 1] true = .ok [issue3, issue1] ∧
    (∀ issue ∈ [issue3, issue1], issue.IsPull = false) ∧
    IssueSuggestions
        { SearchIssues := (exampleCollaborators [3, 1]).SearchIssues
          GetIssuesByIDs := (exampleCollaborators [3, 1]).GetIssuesByIDs
          LoadPullRequest := failingLoadPullRequest
          IsWorkInProgress := fun _ => true } "bug" 7 true false =
      Response.JSON 200
        [{ ID := 3, Title := "bugfix", State := "closed", PullRequest := none },
         { ID := 1, Title := "bug: crash", State := "open", PullRequest := none }] ∧
    IssueSuggestions (exampleCollaborators [3, 1]) "bug" 7 true false =
      IssueSuggestions
        { SearchIssues := (exampleCollaborators [3, 1]).SearchIssues
          GetIssuesByIDs := (exampleCollaborators [3, 1]).GetIssuesByIDs
          LoadPullRequest := failingLoadPullRequest
          IsWorkInProgress := fun _ => true } "bug" 7 true false :=
  ⟨rfl, by decide, rfl,
    (linkage_only_for_pulls (exampleCollaborators [3, 1])
      { SearchIssues := (exampleCollaborators [3, 1]).SearchIssues
        GetIssuesByIDs := (exampleCollaborators [3, 1]).GetIssuesByIDs
        LoadPullRequest := failingLoadPullRequest
        IsWorkInProgress := fun _ => true } "bug" 7 true false [3, 1] 2 [issue3, issue1]
      rfl rfl rfl rfl (by decide)).1⟩

end Repo
